import Mathlib

/-!
Verification of the NDLI Times-of-India scraper (`scraper/scrape_toi.py`,
`scraper/utils.py`) against its natural-language specification.

The HTML parser (BeautifulSoup) and the HTTP client (requests) are external
collaborators of the program: pages are therefore modelled as already-parsed
DOM views (`Content`, `Page`), and the network as an oracle (`Net`) mapping a
URL either to a parsed page or to a failure reason (a Python exception text).
A found tag is modelled as `some`; `None` from `find` is `none`.  Python `str`
operations and the concrete regular expressions of the source are modelled
executably over the character list of a `String`.
-/

namespace NdliToi

/-! ## Python string primitives -/

/-- The whitespace characters stripped by Python `str.strip()` and matched by
the regex class `\s` (ASCII fragment). -/
def pyIsSpace (c : Char) : Bool :=
  c = ' ' || c = '\t' || c = '\n' || c = '\r' || c = Char.ofNat 11 || c = Char.ofNat 12

/-- Python `str.strip()`. -/
def pyStrip (s : String) : String :=
  ⟨((s.data.dropWhile pyIsSpace).reverse.dropWhile pyIsSpace).reverse⟩

/-- Python `str.lower()` (ASCII model). -/
def pyLower (s : String) : String :=
  ⟨s.data.map Char.toLower⟩

/-- `pat` occurs as a prefix of `cs`. -/
def listIsPrefix : List Char → List Char → Bool
  | [], _ => true
  | _ :: _, [] => false
  | a :: as, b :: bs => a == b && listIsPrefix as bs

/-- Python `pat in hay` (substring containment). -/
def listHasSub (pat : List Char) : List Char → Bool
  | [] => listIsPrefix pat []
  | hay@(_ :: t) => listIsPrefix pat hay || listHasSub pat t

/-- Python `pat in hay` on strings. -/
def strContains (hay pat : String) : Bool :=
  listHasSub pat.data hay.data

/-- Python `hay.startswith(pat)`. -/
def strStartsWith (hay pat : String) : Bool :=
  listIsPrefix pat.data hay.data

/-! ## URL parsing and joining (model of `urllib.parse`) -/

/-- Rest of a scheme: letters/digits/`+`/`-`/`.` then a colon. -/
def hasSchemeAux : List Char → Bool
  | [] => false
  | c :: t => if c = ':' then true else (c.isAlphanum || c = '+' || c = '-' || c = '.') && hasSchemeAux t

/-- The URL has a leading `scheme:` part. -/
def hasScheme (u : String) : Bool :=
  match u.data with
  | [] => false
  | c :: t => c.isAlpha && hasSchemeAux t

/-- `urlparse(u).scheme` (without Python's lower-casing of unusual schemes;
the URLs handled here are already lower-case `http`/`https`). -/
def schemeOf (u : String) : String :=
  if hasScheme u then ⟨u.data.takeWhile (· ≠ ':')⟩ else ""

/-- Characters of `u` after the `scheme:` part, or all of them. -/
def afterSchemeChars (u : String) : List Char :=
  if hasScheme u then (u.data.dropWhile (· ≠ ':')).drop 1 else u.data

/-- `urlparse(u).netloc`: present only after a `//`. -/
def netlocOf (u : String) : String :=
  let rest := afterSchemeChars u
  if listIsPrefix ['/', '/'] rest then
    ⟨(rest.drop 2).takeWhile (fun c => c ≠ '/' && c ≠ '?' && c ≠ '#')⟩
  else ""

/-- `urlparse(u).path`. -/
def pathOf (u : String) : String :=
  let rest := afterSchemeChars u
  let afterNet :=
    if listIsPrefix ['/', '/'] rest then
      (rest.drop 2).dropWhile (fun c => c ≠ '/' && c ≠ '?' && c ≠ '#')
    else rest
  ⟨afterNet.takeWhile (fun c => c ≠ '?' && c ≠ '#')⟩

/-- `f"{parsed.scheme}://{parsed.netloc}"`, the base used throughout the
scraper. -/
def originOf (u : String) : String :=
  schemeOf u ++ "://" ++ netlocOf u

/-- Directory part of a path, up to and including the last `/`. -/
def dirOfPath (p : String) : String :=
  let cut := p.data.reverse.dropWhile (· ≠ '/')
  if cut.isEmpty then "/" else ⟨cut.reverse⟩

/-- `normalize_link(base, link) = urljoin(base, link)` (model for the cases
arising here: absolute, protocol-relative, root-relative and plain relative
references). -/
def normalize_link (base href : String) : String :=
  if href = "" then base
  else if hasScheme href then href
  else if strStartsWith href "//" then schemeOf base ++ ":" ++ href
  else if strStartsWith href "/" then originOf base ++ href
  else originOf base ++ dirOfPath (pathOf base) ++ href

/-! ## The concrete regular expressions of the source -/

/-- First match of `(19|20)\d{2}` (leftmost scan), as used in
`list_month_urls`. -/
def firstYearAux : List Char → Option String
  | [] => none
  | c0 :: rest =>
    match rest with
    | c1 :: c2 :: c3 :: _ =>
      if ((c0 = '1' && c1 = '9') || (c0 = '2' && c1 = '0')) && c2.isDigit && c3.isDigit then
        some ⟨[c0, c1, c2, c3]⟩
      else firstYearAux rest
    | _ => none

/-- `re.search(r"(19|20)\d{2}", u)`, returning the matched 4-digit year. -/
def firstYear (u : String) : Option String :=
  firstYearAux u.data

/-- `re.search(r"/(\d+)$", path)`: the NDLI numeric record id trailing a
path. -/
def trailingId (path : String) : Option String :=
  let rev := path.data.reverse
  let ds := rev.takeWhile Char.isDigit
  if ds.isEmpty then none
  else
    match rev.drop ds.length with
    | '/' :: _ => some ⟨ds.reverse⟩
    | _ => none

/-- `re.search(r"/(\d{1,2})$", u)`: a trailing short numeric path segment. -/
def trailingShortNum (u : String) : Option String :=
  let rev := u.data.reverse
  let ds := rev.takeWhile Char.isDigit
  if ds.length = 1 || ds.length = 2 then
    match rev.drop ds.length with
    | '/' :: _ => some ⟨ds.reverse⟩
    | _ => none
  else none

/-- The news-domain pattern
`re.compile(r"timesofindia|indiatimes|articleshow|\.cms", re.IGNORECASE)`. -/
def news_re (u : String) : Bool :=
  let l := pyLower u
  strContains l "timesofindia" || strContains l "indiatimes" ||
    strContains l "articleshow" || strContains l ".cms"

/-- `pattern.search(path)` for
`re.compile(r"/nw_document/toi/timesofindia/\d+$")`. -/
def headlinePathMatch (path : String) : Bool :=
  let rev := path.data.reverse
  let ds := rev.takeWhile Char.isDigit
  !ds.isEmpty && listIsPrefix ("/nw_document/toi/timesofindia/".data.reverse) (rev.drop ds.length)

/-- `re.fullmatch(r"\d{1,2}", t)`. -/
def isFullDay (t : String) : Bool :=
  (t.data.length = 1 || t.data.length = 2) && t.data.all Char.isDigit

/-- After the day digits of `\d{1,2}\s*[A-Za-z]{3,9}`: skip whitespace, then
at least three letters. -/
def dayMonthAfterDigits (cs : List Char) : Bool :=
  let r := cs.dropWhile pyIsSpace
  (r.take 3).length = 3 && (r.take 3).all Char.isAlpha

/-- `\d{1,2}\s*[A-Za-z]{3,9}` anchored at this position. -/
def dayMonthAt : List Char → Bool
  | [] => false
  | c :: rest =>
    c.isDigit &&
      (dayMonthAfterDigits rest ||
        (match rest with
          | d :: r2 => d.isDigit && dayMonthAfterDigits r2
          | [] => false))

/-- `\d{4}-\d{2}-\d{2}` anchored at this position. -/
def isoAt : List Char → Bool
  | a :: b :: c :: d :: s1 :: e :: f :: s2 :: g :: h :: _ =>
    a.isDigit && b.isDigit && c.isDigit && d.isDigit && s1 = '-' &&
      e.isDigit && f.isDigit && s2 = '-' && g.isDigit && h.isDigit
  | _ => false

/-- After the first dash of `\d{1,2}-[A-Za-z]{3,9}-\d{4}`: a 3–9 letter run
followed by a dash and four digits. -/
def dmyAfterDash (cs : List Char) : Bool :=
  let run := cs.takeWhile Char.isAlpha
  let rest := cs.drop run.length
  decide (3 ≤ run.length) && decide (run.length ≤ 9) &&
    (match rest with
      | '-' :: r => (r.take 4).length = 4 && (r.take 4).all Char.isDigit
      | _ => false)

/-- `\d{1,2}-[A-Za-z]{3,9}-\d{4}` anchored at this position. -/
def dmyAt : List Char → Bool
  | [] => false
  | c :: rest =>
    c.isDigit &&
      ((match rest with
        | '-' :: r => dmyAfterDash r
        | _ => false) ||
       (match rest with
        | d :: '-' :: r => d.isDigit && dmyAfterDash r
        | _ => false))

/-- `re.search` existence: the anchored test holds at some position. -/
def searchAny (p : List Char → Bool) : List Char → Bool
  | [] => p []
  | cs@(_ :: t) => p cs || searchAny p t

/-! A small backtracking matcher, used only for the one pattern whose matched
text (not mere existence) the source uses:
`(19|20)\d{2}[-_/]?\d{1,2}[-_/]?\d{1,2}`.  A matcher returns the possible
(matched prefix, rest) pairs in the backtracking preference order of `re`. -/

/-- Result alternatives of a matcher, preference-ordered. -/
abbrev MRes := List (List Char × List Char)

/-- Match a literal. -/
def mlit (lit : List Char) (cs : List Char) : MRes :=
  if listIsPrefix lit cs then [(lit, cs.drop lit.length)] else []

/-- Match one character satisfying `p`. -/
def mchar (p : Char → Bool) : List Char → MRes
  | [] => []
  | c :: r => if p c then [([c], r)] else []

/-- Sequencing of matchers. -/
def mseq (m1 m2 : List Char → MRes) (cs : List Char) : MRes :=
  (m1 cs).flatMap (fun pr => (m2 pr.2).map (fun qr => (pr.1 ++ qr.1, qr.2)))

/-- Alternation, left preferred. -/
def malt (m1 m2 : List Char → MRes) (cs : List Char) : MRes :=
  m1 cs ++ m2 cs

/-- Greedy option `?`. -/
def mopt (m : List Char → MRes) (cs : List Char) : MRes :=
  m cs ++ [([], cs)]

/-- The separator class `[-_/]`. -/
def isDateSep (c : Char) : Bool :=
  c = '-' || c = '_' || c = '/'

/-- Greedy `\d{1,2}`. -/
def mDigits12 : List Char → MRes :=
  mseq (mchar Char.isDigit) (mopt (mchar Char.isDigit))

/-- The pattern `(19|20)\d{2}[-_/]?\d{1,2}[-_/]?\d{1,2}`. -/
def mUrlDate : List Char → MRes :=
  mseq (malt (mlit ['1', '9']) (mlit ['2', '0']))
    (mseq (mchar Char.isDigit)
      (mseq (mchar Char.isDigit)
        (mseq (mopt (mchar isDateSep))
          (mseq mDigits12 (mseq (mopt (mchar isDateSep)) mDigits12)))))

/-- `re.search` with matched text: first position with a match, first
alternative there. -/
def firstMatch (m : List Char → MRes) : List Char → Option (List Char)
  | [] => ((m []).head?).map (·.1)
  | cs@(_ :: t) =>
    match (m cs).head? with
    | some pr => some pr.1
    | none => firstMatch m t

/-- `re.search(r"(19|20)\d{2}[-_/]?\d{1,2}[-_/]?\d{1,2}", u)`, group 0. -/
def urlDateMatch (u : String) : Option String :=
  (firstMatch mUrlDate u.data).map (fun cs => ⟨cs⟩)

/-! ## The DOM model

BeautifulSoup is an external collaborator (`parse(html) -> DOM`); a parsed
document is modelled by the views the scraper queries.  Texts are the result
of `get_text(separator=" ", strip=True)` on the corresponding node. -/

/-- An `<a href=...>` element: `find_all("a", href=True)` entry. -/
structure Anchor where
  href : String
  text : String
  classes : List String
deriving Repr, DecidableEq

/-- A `<meta>` element with its `property`, `name` and `content` attributes. -/
structure MetaTag where
  prop : Option String
  nameAttr : Option String
  content : Option String
deriving Repr, DecidableEq

/-- A generic element as seen by the `find_all(True)` scans of the viewer
tier: its `data-href`/`data-url`/`data-link` and `onclick` attributes. -/
structure GElem where
  dataHref : Option String
  dataUrl : Option String
  dataLink : Option String
  onclick : Option String
deriving Repr, DecidableEq

/-- The queried views of one DOM (sub)tree, each in document order. -/
structure Content where
  anchors : List Anchor
  iframes : List String
  gelems : List GElem
  metas : List MetaTag
  canonical : Option (Option String)
  listItems : List String
  paragraphs : List String
deriving Repr, DecidableEq

/-- A parsed document: its whole-tree view, the `<title>` string
(`soup.title` present ↦ `some`, its `.string` ↦ inner `Option`), and the
subtree lookups the scraper performs. -/
structure Page where
  titleTag : Option (Option String)
  whole : Content
  articleSub : Option Content
  mainTagSub : Option Content
  subById : String → Option Content

/-- The network oracle: `fetch` models `requests.get` + `raise_for_status`
+ parsing (failure carries the exception text), `headGet` models the
redirect-following streamed GET of the final resolver tier, returning the
final status code and final URL. -/
structure Net where
  fetch : String → Except String Page
  headGet : String → Except String (Nat × String)

/-! ## Deduplication loops

Every classifier uses the same `seen`-set pattern: per element, compute an
optional candidate, skip it when its key was already seen, else emit it and
record the key. -/

/-- The literal dedup loop over precomputed candidates (as in
`extract_titles_from_page`). -/
def dedupBy {α : Type} (key : α → String) : List α → List String → List α
  | [], _ => []
  | x :: xs, seen =>
    if seen.contains (key x) then dedupBy key xs seen
    else x :: dedupBy key xs (key x :: seen)

/-- The fused classifier loop: filter and dedup in one pass (as in
`list_year_urls`, `list_linked_pages`, `list_month_urls`, `list_date_urls`,
`list_headline_urls`). -/
def scanDedup {α β : Type} (f : α → Option β) (key : β → String) : List α → List String → List β
  | [], _ => []
  | x :: xs, seen =>
    match f x with
    | none => scanDedup f key xs seen
    | some b =>
      if seen.contains (key b) then scanDedup f key xs seen
      else b :: scanDedup f key xs (key b :: seen)

/-- Reference formulation of first-seen deduplication: keep each element and
erase later elements with the same key. -/
def keepFirstsBy {α : Type} (key : α → String) : List α → List α
  | [] => []
  | x :: xs => x :: keepFirstsBy key (xs.filter (fun y => key y ≠ key x))
termination_by l => l.length
decreasing_by
  simp only [List.length_cons]
  exact Nat.lt_succ_of_le (List.length_filter_le _ _)

/-! ## `scraper/utils.py` -/

/-- The result dict of `extract_text_and_title` (the `html` field merely
echoes the input and is omitted). -/
structure ExtractResult where
  title : Option String
  text : Option String
deriving Repr, DecidableEq

/-- `extract_text_and_title(html)`. -/
def extract_text_and_title (p : Page) : ExtractResult :=
  let title :=
    match p.titleTag with
    | some (some s) => if s = "" then none else some (pyStrip s)
    | _ => none
  let paragraphs :=
    match p.articleSub with
    | some c => c.paragraphs
    | none =>
      match p.subById "main" with
      | some c => c.paragraphs
      | none =>
        match p.mainTagSub with
        | some c => c.paragraphs
        | none => p.whole.paragraphs
  let texts := paragraphs.filter (fun t => t ≠ "")
  let text := if texts.isEmpty then none else some (String.intercalate "\n\n" texts)
  ⟨title, text⟩

/-- The content root `soup.find("article") or soup.find(id="main") or
soup.find("main")`, falling back to the whole document. -/
def searchRootOf (p : Page) : Content :=
  match p.articleSub with
  | some c => c
  | none =>
    match p.subById "main" with
    | some c => c
    | none =>
      match p.mainTagSub with
      | some c => c
      | none => p.whole

/-- The anchor-candidate filter of `extract_titles_from_page`: non-empty
text, at least 4 characters, not a pure 4-digit year. -/
def titleAnchorCand (a : Anchor) : Option String :=
  if a.text = "" then none
  else if a.text.data.length < 4 then none
  else if a.text.data.all Char.isDigit && a.text.data.length = 4 then none
  else some a.text

/-- The list-item filter of `extract_titles_from_page`: non-empty text of at
least 4 characters (no 4-digit exclusion here). -/
def titleListItemCand (t : String) : Option String :=
  if t = "" then none
  else if t.data.length < 4 then none
  else some t

/-- `extract_titles_from_page(html)["titles"]`: anchor candidates, then list
item candidates, deduplicated preserving first-seen order. -/
def extract_titles_from_page (p : Page) : List String :=
  let root := searchRootOf p
  let candidates := root.anchors.filterMap titleAnchorCand ++ root.listItems.filterMap titleListItemCand
  dedupBy (fun t => t) candidates []

/-! ## Hierarchy classifiers (`scraper/scrape_toi.py`) -/

/-- Per-anchor body of the `list_year_urls` loop. -/
def yearAnchorCand (base : String) (a : Anchor) : Option String :=
  let href := pyStrip a.href
  if strStartsWith href "javascript:" then none
  else
    let full := normalize_link base href
    if strContains full "/nw_document/toi/timesofindia/" && strContains full "IN__thetoi_" then
      some full
    else none

/-- `list_year_urls` on an already-fetched start page. -/
def list_year_urls_core (start_url : String) (p : Page) : List String :=
  scanDedup (yearAnchorCand (originOf start_url)) (fun u => u) p.whole.anchors []

/-- `list_year_urls(start_url)`; a fetch failure raises `RuntimeError`. -/
def list_year_urls (net : Net) (start_url : String) : Except String (List String) :=
  match net.fetch start_url with
  | .error e => .error ("Failed to fetch start url " ++ start_url ++ ": " ++ e)
  | .ok p => .ok (list_year_urls_core start_url p)

/-- Per-anchor body of the `list_linked_pages` loop: same-domain check is
substring containment of the base netloc in the link netloc. -/
def linkedAnchorCand (url : String) (a : Anchor) : Option String :=
  let href := pyStrip a.href
  if strStartsWith href "javascript:" then none
  else
    let full := normalize_link (originOf url) href
    if strContains (netlocOf full) (netlocOf url) then some full else none

/-- `list_linked_pages` on an already-fetched page. -/
def list_linked_pages_core (url : String) (p : Page) : List String :=
  scanDedup (linkedAnchorCand url) (fun u => u) p.whole.anchors []

/-- `list_linked_pages(url)`; a fetch failure logs and returns `[]`. -/
def list_linked_pages (net : Net) (url : String) : List String :=
  match net.fetch url with
  | .error _ => []
  | .ok p => list_linked_pages_core url p

/-- Per-anchor body of the `list_month_urls` loop: same-domain, not the year
URL itself, and containing the parsed 4-digit year when one exists. -/
def monthAnchorCand (year_url : String) (year : Option String) (a : Anchor) : Option String :=
  let href := pyStrip a.href
  if strStartsWith href "javascript:" then none
  else
    let full := normalize_link (originOf year_url) href
    if !(strContains (netlocOf full) (netlocOf year_url)) then none
    else if full = year_url then none
    else if (match year with | some y => !(strContains full y) | none => false) then none
    else some full

/-- `list_month_urls` on an already-fetched year page. -/
def list_month_urls_core (year_url : String) (p : Page) : List String :=
  scanDedup (monthAnchorCand year_url (firstYear year_url)) (fun u => u) p.whole.anchors []

/-- `list_month_urls(year_url)`; a fetch failure raises `RuntimeError`. -/
def list_month_urls (net : Net) (year_url : String) : Except String (List String) :=
  match net.fetch year_url with
  | .error e => .error ("Failed to fetch year url " ++ year_url ++ ": " ++ e)
  | .ok p => .ok (list_month_urls_core year_url p)

/-- `path.rstrip("/").split("/")[-1]`. -/
def lastSegment (path : String) : String :=
  let stripped := (path.data.reverse.dropWhile (· = '/')).reverse
  ⟨(stripped.reverse.takeWhile (· ≠ '/')).reverse⟩

/-- The container searched by `list_date_urls`:
`soup.find(id=f"col_toi_timesofindia_{last_segment}")`, falling back (when
that id is absent) to `<article>`/`id="main"`/`<main>`/the whole page. -/
def dateMain (month_url : String) (p : Page) : Content :=
  match p.subById ("col_toi_timesofindia_" ++ lastSegment (pathOf month_url)) with
  | some c => c
  | none => searchRootOf p

/-- Per-anchor body of the `list_date_urls` loop, producing `(label, url)`. -/
def dateAnchorCand (month_url : String) (a : Anchor) : Option (String × String) :=
  let href := pyStrip a.href
  if strStartsWith href "javascript:" then none
  else
    let full := normalize_link (originOf month_url) href
    if !(strContains (netlocOf full) (netlocOf month_url)) then none
    else
      let fromText : Option String :=
        if isFullDay a.text then some a.text
        else if searchAny dayMonthAt a.text.data || searchAny isoAt a.text.data ||
            searchAny dmyAt a.text.data then some a.text
        else none
      let fromUrl : Option String :=
        match fromText with
        | some l => some l
        | none =>
          match urlDateMatch full with
          | some l => some l
          | none => trailingShortNum full
      let label :=
        match fromUrl with
        | some l => l
        | none => if a.text ≠ "" then a.text else full
      some (label, full)

/-- `list_date_urls` on an already-fetched month page. -/
def list_date_urls_core (month_url : String) (p : Page) : List (String × String) :=
  scanDedup (dateAnchorCand month_url) Prod.snd (dateMain month_url p).anchors []

/-- `list_date_urls(month_url)`; a fetch failure raises `RuntimeError`. -/
def list_date_urls (net : Net) (month_url : String) : Except String (List (String × String)) :=
  match net.fetch month_url with
  | .error e => .error ("Failed to fetch month url " ++ month_url ++ ": " ++ e)
  | .ok p => .ok (list_date_urls_core month_url p)

/-- Per-anchor body of the `list_headline_urls` loop: the URL path must end
in a numeric id under the collection path, and the anchor text must be at
least 4 characters. -/
def headlineAnchorCand (date_url : String) (a : Anchor) : Option (String × String) :=
  let href := pyStrip a.href
  if strStartsWith href "javascript:" then none
  else
    let full := normalize_link (originOf date_url) href
    if !(headlinePathMatch (pathOf full)) then none
    else if a.text = "" || a.text.data.length < 4 then none
    else some (a.text, full)

/-- `list_headline_urls` on an already-fetched date page. -/
def list_headline_urls_core (date_url : String) (p : Page) : List (String × String) :=
  scanDedup (headlineAnchorCand date_url) Prod.snd (searchRootOf p).anchors []

/-- `list_headline_urls(date_url)`; a fetch failure raises `RuntimeError`. -/
def list_headline_urls (net : Net) (date_url : String) : Except String (List (String × String)) :=
  match net.fetch date_url with
  | .error e => .error ("Failed to fetch date url " ++ date_url ++ ": " ++ e)
  | .ok p => .ok (list_headline_urls_core date_url p)

/-- `extract_titles_from_date_url(date_url)`; a fetch failure logs and
returns `[]`. -/
def extract_titles_from_date_url (net : Net) (date_url : String) : List String :=
  match net.fetch date_url with
  | .error _ => []
  | .ok p => extract_titles_from_page p

/-! ## The external-URL resolver (`extract_external_link`) -/

/-- `is_external(u)`: the URL has a hostname and it does not contain the
substring `ndl.gov.in`. -/
def is_external (u : String) : Bool :=
  netlocOf u ≠ "" && !(strContains (netlocOf u) "ndl.gov.in")

/-- `ndli_id and ndli_id in u`. -/
def idMatch (ndli_id : Option String) (u : String) : Bool :=
  match ndli_id with
  | some i => strContains u i
  | none => false

/-- A single quote character. -/
def squote : Char := Char.ofNat 39

/-- A double quote character. -/
def dquote : Char := Char.ofNat 34

/-- `['\"]([^'\"]+)['\"]` at this position: a quote, a non-empty quote-free
capture, a quote.  Returns the capture and the consumed length. -/
def matchQuoted : List Char → Option (List Char × Nat)
  | [] => none
  | q :: rest =>
    if q = squote || q = dquote then
      let cap := rest.takeWhile (fun c => c ≠ squote && c ≠ dquote)
      if cap.isEmpty then none
      else
        match rest.drop cap.length with
        | q2 :: _ => if q2 = squote || q2 = dquote then some (cap, cap.length + 2) else none
        | [] => none
    else none

/-- `window\.open\(['\"]([^'\"]+)['\"]` at this position. -/
def matchWindowOpen (cs : List Char) : Option (List Char × Nat) :=
  let lit := "window.open(".data
  if listIsPrefix lit cs then
    match matchQuoted (cs.drop lit.length) with
    | some (cap, k) => some (cap, lit.length + k)
    | none => none
  else none

/-- `\s*=\s*['\"]([^'\"]+)['\"]` at this position. -/
def matchAssign (cs : List Char) : Option (List Char × Nat) :=
  let ws1 := cs.takeWhile pyIsSpace
  match cs.drop ws1.length with
  | '=' :: r1 =>
    let ws2 := r1.takeWhile pyIsSpace
    match matchQuoted (r1.drop ws2.length) with
    | some (cap, k) => some (cap, ws1.length + 1 + ws2.length + k)
    | none => none
  | _ => none

/-- `location(?:\.href|\.replace)?\s*=\s*['\"]([^'\"]+)['\"]` at this
position, trying the optional suffixes in regex preference order. -/
def matchLocation (cs : List Char) : Option (List Char × Nat) :=
  let lit := "location".data
  if listIsPrefix lit cs then
    let rest := cs.drop lit.length
    let withSuffix : List Char → Option (List Char × Nat) := fun suf =>
      if listIsPrefix suf rest then
        match matchAssign (rest.drop suf.length) with
        | some (cap, k) => some (cap, lit.length + suf.length + k)
        | none => none
      else none
    match withSuffix ".href".data with
    | some r => some r
    | none =>
      match withSuffix ".replace".data with
      | some r => some r
      | none =>
        match matchAssign rest with
        | some (cap, k) => some (cap, lit.length + k)
        | none => none
  else none

/-- `re.finditer`: scan left to right, emit each capture, continue after the
match (fuel-driven; `fuel = length` suffices since every step consumes at
least one character). -/
def finditer (m : List Char → Option (List Char × Nat)) : Nat → List Char → List String
  | 0, _ => []
  | _, [] => []
  | fuel + 1, cs@(_ :: t) =>
    match m cs with
    | some (cap, k) => (⟨cap⟩ : String) :: finditer m fuel (cs.drop k)
    | none => finditer m fuel t

/-- `extract_js_urls(js)`: URLs inside `window.open` or
`location.href =`-style patterns. -/
def extract_js_urls (js : String) : List String :=
  if js = "" then []
  else
    finditer matchWindowOpen js.data.length js.data ++
      finditer matchLocation js.data.length js.data

/-- Viewer sub-pass 1: external anchor hrefs, preferring (per anchor) the
NDLI id, then the news pattern. -/
def vAnchorPass (vurl : String) (ndli_id : Option String) : List Anchor → Option String
  | [] => none
  | a :: rest =>
    let href := pyStrip a.href
    if href = "" then vAnchorPass vurl ndli_id rest
    else
      let full := normalize_link vurl href
      if !(is_external full) then vAnchorPass vurl ndli_id rest
      else if idMatch ndli_id full then some full
      else if news_re full then some full
      else vAnchorPass vurl ndli_id rest

/-- One `data-href`/`data-url`/`data-link` attribute value, tested like an
anchor href. -/
def tryDataAttr (vurl : String) (ndli_id : Option String) : Option String → Option String
  | none => none
  | some v =>
    if v = "" then none
    else
      let full := normalize_link vurl (pyStrip v)
      if is_external full then
        if idMatch ndli_id full then some full
        else if news_re full then some full
        else none
      else none

/-- Viewer sub-pass 2: `data-href`/`data-url`/`data-link` attributes over all
elements. -/
def vDataPass (vurl : String) (ndli_id : Option String) : List GElem → Option String
  | [] => none
  | g :: rest =>
    match tryDataAttr vurl ndli_id g.dataHref with
    | some r => some r
    | none =>
      match tryDataAttr vurl ndli_id g.dataUrl with
      | some r => some r
      | none =>
        match tryDataAttr vurl ndli_id g.dataLink with
        | some r => some r
        | none => vDataPass vurl ndli_id rest

/-- URLs extracted from one onclick handler, tested in order. -/
def vJsUrls (vurl : String) (ndli_id : Option String) : List String → Option String
  | [] => none
  | u :: rest =>
    let full := normalize_link vurl u
    if is_external full then
      if idMatch ndli_id full then some full
      else if news_re full then some full
      else vJsUrls vurl ndli_id rest
    else vJsUrls vurl ndli_id rest

/-- Viewer sub-pass 3: onclick handlers over all elements carrying one. -/
def vOnclickPass (vurl : String) (ndli_id : Option String) : List GElem → Option String
  | [] => none
  | g :: rest =>
    match g.onclick with
    | none => vOnclickPass vurl ndli_id rest
    | some js =>
      match vJsUrls vurl ndli_id (extract_js_urls js) with
      | some r => some r
      | none => vOnclickPass vurl ndli_id rest

/-- `soup.find("meta", property=p) or soup.find("meta", attrs={"name": p})`. -/
def findMeta (c : Content) (p : String) : Option MetaTag :=
  match c.metas.find? (fun m => m.prop == some p) with
  | some t => some t
  | none => c.metas.find? (fun m => m.nameAttr == some p)

/-- One meta lookup: return the content if present, non-empty and external. -/
def metaCheck (c : Content) (p : String) : Option String :=
  match findMeta c p with
  | none => none
  | some tag =>
    match tag.content with
    | none => none
    | some cv => if cv ≠ "" && is_external cv then some cv else none

/-- The `og:url` / `twitter:url` meta pass (used inside the viewer and as
resolver tier 3). -/
def metaPass (c : Content) : Option String :=
  match metaCheck c "og:url" with
  | some r => some r
  | none => metaCheck c "twitter:url"

/-- The `link[rel=canonical]` pass (inside the viewer and as tier 4). -/
def canonicalPass (c : Content) : Option String :=
  match c.canonical with
  | some (some h) => if h ≠ "" && is_external h then some h else none
  | _ => none

/-- Viewer sub-pass 5: the first nested iframe, kept if external. -/
def nestedIframePass (vurl : String) (c : Content) : Option String :=
  match c.iframes.head? with
  | none => none
  | some src =>
    let nsrc := pyStrip src
    if nsrc = "" then none
    else
      let nfull := normalize_link vurl nsrc
      if is_external nfull then some nfull else none

/-- All sub-passes over one fetched viewer document, in source order. -/
def viewerScan (vurl : String) (ndli_id : Option String) (c : Content) : Option String :=
  match vAnchorPass vurl ndli_id c.anchors with
  | some r => some r
  | none =>
    match vDataPass vurl ndli_id c.gelems with
    | some r => some r
    | none =>
      match vOnclickPass vurl ndli_id c.gelems with
      | some r => some r
      | none =>
        match metaPass c with
        | some r => some r
        | none =>
          match canonicalPass c with
          | some r => some r
          | none => nestedIframePass vurl c

/-- Resolver tier 1: for each iframe whose src mentions `viewer.php` or
`module-viewer`, fetch it (a failure skips to the next iframe) and scan it. -/
def viewerTier (net : Net) (base : String) (ndli_id : Option String) : List String → Option String
  | [] => none
  | src :: rest =>
    let s := pyStrip src
    if s = "" then viewerTier net base ndli_id rest
    else if strContains s "viewer.php" || strContains s "module-viewer" then
      let vurl := normalize_link base s
      match net.fetch vurl with
      | .error _ => viewerTier net base ndli_id rest
      | .ok vp =>
        match viewerScan vurl ndli_id vp.whole with
        | some r => some r
        | none => viewerTier net base ndli_id rest
    else viewerTier net base ndli_id rest

/-- Resolver tier 2: anchors with the `btn btn-success` classes or an
`open content` call-to-action text, preferring id, then news pattern. -/
def buttonTier (base : String) (ndli_id : Option String) : List Anchor → Option String
  | [] => none
  | a :: rest =>
    if (a.classes.contains "btn" && a.classes.contains "btn-success") ||
        strContains (pyLower a.text) "open content" then
      let href := pyStrip a.href
      if href = "" then buttonTier base ndli_id rest
      else
        let full := normalize_link base href
        if !(is_external full) then buttonTier base ndli_id rest
        else if idMatch ndli_id full then some full
        else if news_re full then some full
        else buttonTier base ndli_id rest
    else buttonTier base ndli_id rest

/-- Resolver tier 5: the first external iframe src (raw, stripped). -/
def bareIframeTier : List String → Option String
  | [] => none
  | src :: rest =>
    let s := pyStrip src
    if is_external s then some s else bareIframeTier rest

/-- Tier 6 collection: external absolute anchor hrefs (raw). -/
def collectCandidates : List Anchor → List String
  | [] => []
  | a :: rest =>
    let href := pyStrip a.href
    if strStartsWith href "javascript:" then collectCandidates rest
    else if !(strStartsWith (pyLower href) "http://" || strStartsWith (pyLower href) "https://") then
      collectCandidates rest
    else if is_external href then href :: collectCandidates rest
    else collectCandidates rest

/-- Resolver tier 6: a full id-preference pass over the candidates, then a
full news-pattern pass. -/
def anchorTier (ndli_id : Option String) (anchors : List Anchor) : Option String :=
  let candidates := collectCandidates anchors
  match ndli_id with
  | some i =>
    match candidates.find? (fun c => strContains c i) with
    | some r => some r
    | none => candidates.find? news_re
  | none => candidates.find? news_re

/-- The constructed articleshow guess URL. -/
def guessCandidate (i : String) : String :=
  "https://timesofindia.indiatimes.com/articleshow/" ++ i ++ ".cms"

/-- Resolver tier 7: follow redirects from the constructed guess; keep the
final URL when the status is truthy, below 400 and the URL external.  Any
request failure is swallowed. -/
def guessTier (net : Net) : Option String → Option String
  | none => none
  | some i =>
    match net.headGet (guessCandidate i) with
    | .error _ => none
    | .ok (status, finalUrl) =>
      if status ≠ 0 && decide (status < 400) && is_external finalUrl then some finalUrl
      else none

/-- `extract_external_link(article_url)`: the strictly ordered tier chain;
a fetch failure of the article page itself yields `none`. -/
def extract_external_link (net : Net) (article_url : String) : Option String :=
  match net.fetch article_url with
  | .error _ => none
  | .ok page =>
    let base := originOf article_url
    let ndli_id := trailingId (pathOf article_url)
    match viewerTier net base ndli_id page.whole.iframes with
    | some r => some r
    | none =>
      match buttonTier base ndli_id page.whole.anchors with
      | some r => some r
      | none =>
        match metaPass page.whole with
        | some r => some r
        | none =>
          match canonicalPass page.whole with
          | some r => some r
          | none =>
            match bareIframeTier page.whole.iframes with
            | some r => some r
            | none =>
              match anchorTier ndli_id page.whole.anchors with
              | some r => some r
              | none => guessTier net ndli_id

/-! ## The hierarchical crawl orchestrator (`run_hierarchical_scrape`)

Modelled as the sequence of JSON records written to the output file, paired
with the error of an uncaught `RuntimeError` when one aborts the run (records
written before the abort survive, as each line is written immediately). -/

/-- One output record.  `article_url`/`external_url` are only present in
resolve-externals mode; `external_url = some none` is a present field with
JSON `null`. -/
structure Record where
  year_url : String
  month_url : String
  date_url : String
  title : String
  article_url : Option String
  external_url : Option (Option String)
deriving Repr, DecidableEq

/-- Python `l[:n]` for an `int` bound (negative bounds count from the end). -/
def pySlice {α : Type} (l : List α) (n : Int) : List α :=
  if 0 ≤ n then l.take n.toNat else l.take (l.length - n.natAbs)

/-- `if cap: l = l[:cap]` — the truthiness-guarded slicing applied to every
cap parameter; `None` and `0` are both falsy. -/
def truncateCap {α : Type} (cap : Option Int) (l : List α) : List α :=
  match cap with
  | none => l
  | some n => if n = 0 then l else pySlice l n

/-- Records of one date page in resolve-externals mode. -/
def resolveRecords (net : Net) (y m d : String) (items : List (String × String)) : List Record :=
  items.map (fun it => ⟨y, m, d, it.1, some it.2, some (extract_external_link net it.2)⟩)

/-- Records of one date page in plain-title mode. -/
def titleRecords (y m d : String) (items : List String) : List Record :=
  items.map (fun t => ⟨y, m, d, t, none, none⟩)

/-- The inner date loop.  In resolve mode a `list_headline_urls` failure is an
uncaught `RuntimeError` aborting the run. -/
def runDates (net : Net) (y m : String) (maxTitles : Option Int) (resolve : Bool) :
    List String → List Record × Option String
  | [] => ([], none)
  | d :: rest =>
    if resolve then
      match list_headline_urls net d with
      | .error e => ([], some e)
      | .ok items =>
        let recs := resolveRecords net y m d (truncateCap maxTitles items)
        let (rs, err) := runDates net y m maxTitles resolve rest
        (recs ++ rs, err)
    else
      let recs := titleRecords y m d (truncateCap maxTitles (extract_titles_from_date_url net d))
      let (rs, err) := runDates net y m maxTitles resolve rest
      (recs ++ rs, err)

/-- The month loop: dates come from `list_linked_pages` (absorbing). -/
def runMonths (net : Net) (y : String) (maxDates maxTitles : Option Int) (resolve : Bool) :
    List String → List Record × Option String
  | [] => ([], none)
  | m :: rest =>
    let dates := truncateCap maxDates (list_linked_pages net m)
    let (rs1, err1) := runDates net y m maxTitles resolve dates
    match err1 with
    | some e => (rs1, some e)
    | none =>
      let (rs2, err2) := runMonths net y maxDates maxTitles resolve rest
      (rs1 ++ rs2, err2)

/-- The year loop: months come from `list_linked_pages` (absorbing). -/
def runYears (net : Net) (maxMonths maxDates maxTitles : Option Int) (resolve : Bool) :
    List String → List Record × Option String
  | [] => ([], none)
  | y :: rest =>
    let months := truncateCap maxMonths (list_linked_pages net y)
    let (rs1, err1) := runMonths net y maxDates maxTitles resolve months
    match err1 with
    | some e => (rs1, some e)
    | none =>
      let (rs2, err2) := runYears net maxMonths maxDates maxTitles resolve rest
      (rs1 ++ rs2, err2)

/-- `run_hierarchical_scrape(start_url, ..., max_years, max_months,
max_dates, max_titles_per_date, resolve_externals)`. -/
def run_hierarchical_scrape (net : Net) (start_url : String)
    (maxYears maxMonths maxDates maxTitles : Option Int) (resolve : Bool) :
    List Record × Option String :=
  match list_year_urls net start_url with
  | .error e => ([], some e)
  | .ok years => runYears net maxMonths maxDates maxTitles resolve (truncateCap maxYears years)

/-! ## Lemmas about the deduplication loops -/

theorem scanDedup_eq_dedupBy {α β : Type} (f : α → Option β) (key : β → String) :
    ∀ (l : List α) (seen : List String), scanDedup f key l seen = dedupBy key (l.filterMap f) seen := by
  intro l
  induction l with
  | nil => intro seen; rfl
  | cons a rest ih =>
    intro seen
    simp only [scanDedup, List.filterMap_cons]
    cases h : f a with
    | none => exact ih seen
    | some b =>
      simp only [dedupBy]
      by_cases hs : seen.contains (key b)
      · simp [hs, ih]
      · simp [hs, ih]

theorem dedupBy_eq_keepFirstsBy {α : Type} (key : α → String) :
    ∀ (l : List α) (seen : List String),
      dedupBy key l seen = keepFirstsBy key (l.filter (fun b => !seen.contains (key b))) := by
  intro l
  induction l with
  | nil => intro seen; rw [List.filter_nil, keepFirstsBy]; rfl
  | cons x xs ih =>
    intro seen
    simp only [dedupBy, List.filter_cons]
    cases hs : seen.contains (key x) with
    | true => rw [if_pos rfl, if_neg (by simp), ih]
    | false =>
      rw [if_neg (by simp), if_pos (by simp), keepFirstsBy, ih (key x :: seen)]
      congr 1
      rw [List.filter_filter]
      congr 1
      apply List.filter_congr
      intro b _
      cases hbe : key b == key x <;> cases hsc : seen.contains (key b) <;>
        simp_all [List.contains_cons]

theorem dedupBy_nil_seen {α : Type} (key : α → String) (l : List α) :
    dedupBy key l [] = keepFirstsBy key l := by
  rw [dedupBy_eq_keepFirstsBy]
  congr 1
  simp

theorem scanDedup_nil_seen {α β : Type} (f : α → Option β) (key : β → String) (l : List α) :
    scanDedup f key l [] = keepFirstsBy key (l.filterMap f) := by
  rw [scanDedup_eq_dedupBy, dedupBy_nil_seen]

theorem scanDedup_mem {α β : Type} {f : α → Option β} {key : β → String} :
    ∀ {l : List α} {seen : List String} {b : β},
      b ∈ scanDedup f key l seen → ∃ a ∈ l, f a = some b := by
  intro l
  induction l with
  | nil => intro seen b h; simp [scanDedup] at h
  | cons a rest ih =>
    intro seen b h
    cases hf : f a with
    | none =>
      simp only [scanDedup, hf] at h
      obtain ⟨a', ha', hfa'⟩ := ih h
      exact ⟨a', List.mem_cons_of_mem _ ha', hfa'⟩
    | some b' =>
      simp only [scanDedup, hf] at h
      by_cases hs : seen.contains (key b')
      · rw [if_pos hs] at h
        obtain ⟨a', ha', hfa'⟩ := ih h
        exact ⟨a', List.mem_cons_of_mem _ ha', hfa'⟩
      · rw [if_neg hs] at h
        rcases List.mem_cons.mp h with rfl | h'
        · exact ⟨a, List.mem_cons_self _ _, hf⟩
        · obtain ⟨a', ha', hfa'⟩ := ih h'
          exact ⟨a', List.mem_cons_of_mem _ ha', hfa'⟩

theorem keepFirstsBy_subset {α : Type} (key : α → String) :
    ∀ {l : List α} {x : α}, x ∈ keepFirstsBy key l → x ∈ l := by
  intro l
  induction l using keepFirstsBy.induct key with
  | case1 => intro x h; rw [keepFirstsBy] at h; exact absurd h (List.not_mem_nil x)
  | case2 y ys ih =>
    intro x h
    rw [keepFirstsBy] at h
    rcases List.mem_cons.mp h with rfl | h'
    · exact List.mem_cons_self _ _
    · exact List.mem_cons_of_mem _ (List.mem_of_mem_filter (ih h'))

theorem keepFirstsBy_pairwise {α : Type} (key : α → String) :
    ∀ (l : List α), (keepFirstsBy key l).Pairwise (fun a b => key a ≠ key b) := by
  intro l
  induction l using keepFirstsBy.induct key with
  | case1 => rw [keepFirstsBy]; exact List.Pairwise.nil
  | case2 y ys ih =>
    rw [keepFirstsBy]
    refine List.Pairwise.cons ?_ ih
    intro b hb
    have hb' := keepFirstsBy_subset key hb
    have := List.of_mem_filter hb'
    simp only [decide_eq_true_eq] at this
    exact fun hyb => this hyb.symm

theorem mem_keepFirstsBy_id :
    ∀ {l : List String} {x : String}, x ∈ keepFirstsBy (fun t => t) l ↔ x ∈ l := by
  intro l
  induction l using keepFirstsBy.induct (fun t : String => t) with
  | case1 => intro x; rw [keepFirstsBy]
  | case2 y ys ih =>
    intro x
    rw [keepFirstsBy]
    constructor
    · intro h
      rcases List.mem_cons.mp h with rfl | h'
      · exact List.mem_cons_self _ _
      · exact List.mem_cons_of_mem _ (List.mem_of_mem_filter (ih.mp h'))
    · intro h
      rcases List.mem_cons.mp h with rfl | h'
      · exact List.mem_cons_self _ _
      · by_cases hxy : x = y
        · subst hxy; exact List.mem_cons_self _ _
        · refine List.mem_cons_of_mem _ (ih.mpr ?_)
          exact List.mem_filter.mpr ⟨h', by simpa using hxy⟩

theorem keepFirstsBy_id_nodup (l : List String) : (keepFirstsBy (fun t => t) l).Nodup := by
  have := keepFirstsBy_pairwise (fun t : String => t) l
  exact this.imp (fun h => h)

theorem scanDedup_filter_invariant {α β : Type} (f : α → Option β) (key : β → String)
    (p : α → Bool) (hp : ∀ a, p a = false → f a = none) :
    ∀ (l : List α) (seen : List String), scanDedup f key (l.filter p) seen = scanDedup f key l seen := by
  intro l
  induction l with
  | nil => intro seen; rfl
  | cons a rest ih =>
    intro seen
    rw [List.filter_cons]
    by_cases hpa : p a
    · rw [if_pos hpa]
      simp only [scanDedup]
      cases hf : f a with
      | none => exact ih seen
      | some b =>
        by_cases hs : seen.contains (key b)
        · simp [hs, ih]
        · simp [hs, ih]
    · rw [if_neg hpa]
      have hfa := hp a (by simpa using hpa)
      rw [ih seen]
      conv_rhs => rw [scanDedup]
      rw [hfa]

/-! ## Every candidate a resolver tier returns is external -/

theorem vAnchorPass_external (vurl : String) (ndli_id : Option String) :
    ∀ {l : List Anchor} {r : String}, vAnchorPass vurl ndli_id l = some r → is_external r = true := by
  intro l
  induction l with
  | nil => intro r h; simp [vAnchorPass] at h
  | cons a rest ih =>
    intro r h
    simp only [vAnchorPass] at h
    split at h
    · exact ih h
    · split at h
      · exact ih h
      · split at h
        · cases h; simp_all
        · split at h
          · cases h; simp_all
          · exact ih h

theorem tryDataAttr_external (vurl : String) (ndli_id : Option String) :
    ∀ {v : Option String} {r : String}, tryDataAttr vurl ndli_id v = some r → is_external r = true := by
  intro v r h
  cases v with
  | none => simp [tryDataAttr] at h
  | some s =>
    simp only [tryDataAttr] at h
    split at h
    · exact absurd h (by simp)
    · split at h
      · split at h
        · cases h; assumption
        · split at h
          · cases h; assumption
          · exact absurd h (by simp)
      · exact absurd h (by simp)

theorem vDataPass_external (vurl : String) (ndli_id : Option String) :
    ∀ {l : List GElem} {r : String}, vDataPass vurl ndli_id l = some r → is_external r = true := by
  intro l
  induction l with
  | nil => intro r h; simp [vDataPass] at h
  | cons g rest ih =>
    intro r h
    simp only [vDataPass] at h
    split at h
    · cases h; exact tryDataAttr_external vurl ndli_id (by assumption)
    · split at h
      · cases h; exact tryDataAttr_external vurl ndli_id (by assumption)
      · split at h
        · cases h; exact tryDataAttr_external vurl ndli_id (by assumption)
        · exact ih h

theorem vJsUrls_external (vurl : String) (ndli_id : Option String) :
    ∀ {l : List String} {r : String}, vJsUrls vurl ndli_id l = some r → is_external r = true := by
  intro l
  induction l with
  | nil => intro r h; simp [vJsUrls] at h
  | cons u rest ih =>
    intro r h
    simp only [vJsUrls] at h
    split at h
    · split at h
      · cases h; assumption
      · split at h
        · cases h; assumption
        · exact ih h
    · exact ih h

theorem vOnclickPass_external (vurl : String) (ndli_id : Option String) :
    ∀ {l : List GElem} {r : String}, vOnclickPass vurl ndli_id l = some r → is_external r = true := by
  intro l
  induction l with
  | nil => intro r h; simp [vOnclickPass] at h
  | cons g rest ih =>
    intro r h
    cases hoc : g.onclick with
    | none => simp only [vOnclickPass, hoc] at h; exact ih h
    | some js =>
      simp only [vOnclickPass, hoc] at h
      split at h
      · cases h; exact vJsUrls_external vurl ndli_id (by assumption)
      · exact ih h

theorem metaCheck_external (c : Content) (p : String) :
    ∀ {r : String}, metaCheck c p = some r → is_external r = true := by
  intro r h
  simp only [metaCheck] at h
  split at h
  · exact absurd h (by simp)
  · split at h
    · exact absurd h (by simp)
    · split at h
      · cases h; simp_all
      · exact absurd h (by simp)

theorem metaPass_external (c : Content) :
    ∀ {r : String}, metaPass c = some r → is_external r = true := by
  intro r h
  simp only [metaPass] at h
  split at h
  · cases h; exact metaCheck_external c "og:url" (by assumption)
  · exact metaCheck_external c "twitter:url" h

theorem canonicalPass_external (c : Content) :
    ∀ {r : String}, canonicalPass c = some r → is_external r = true := by
  intro r h
  simp only [canonicalPass] at h
  split at h
  · split at h
    · cases h; simp_all
    · exact absurd h (by simp)
  · exact absurd h (by simp)

theorem nestedIframePass_external (vurl : String) (c : Content) :
    ∀ {r : String}, nestedIframePass vurl c = some r → is_external r = true := by
  intro r h
  simp only [nestedIframePass] at h
  split at h
  · exact absurd h (by simp)
  · split at h
    · exact absurd h (by simp)
    · split at h
      · cases h; assumption
      · exact absurd h (by simp)

theorem viewerScan_external (vurl : String) (ndli_id : Option String) (c : Content) :
    ∀ {r : String}, viewerScan vurl ndli_id c = some r → is_external r = true := by
  intro r h
  simp only [viewerScan] at h
  split at h
  · cases h; exact vAnchorPass_external vurl ndli_id (by assumption)
  · split at h
    · cases h; exact vDataPass_external vurl ndli_id (by assumption)
    · split at h
      · cases h; exact vOnclickPass_external vurl ndli_id (by assumption)
      · split at h
        · cases h; exact metaPass_external c (by assumption)
        · split at h
          · cases h; exact canonicalPass_external c (by assumption)
          · exact nestedIframePass_external vurl c h

theorem viewerTier_external (net : Net) (base : String) (ndli_id : Option String) :
    ∀ {l : List String} {r : String}, viewerTier net base ndli_id l = some r → is_external r = true := by
  intro l
  induction l with
  | nil => intro r h; simp [viewerTier] at h
  | cons src rest ih =>
    intro r h
    simp only [viewerTier] at h
    split at h
    · exact ih h
    · split at h
      · split at h
        · exact ih h
        · split at h
          · cases h
            exact viewerScan_external _ ndli_id _ (by assumption)
          · exact ih h
      · exact ih h

theorem buttonTier_external (base : String) (ndli_id : Option String) :
    ∀ {l : List Anchor} {r : String}, buttonTier base ndli_id l = some r → is_external r = true := by
  intro l
  induction l with
  | nil => intro r h; simp [buttonTier] at h
  | cons a rest ih =>
    intro r h
    simp only [buttonTier] at h
    split at h
    · split at h
      · exact ih h
      · split at h
        · exact ih h
        · split at h
          · cases h; simp_all
          · split at h
            · cases h; simp_all
            · exact ih h
    · exact ih h

theorem bareIframeTier_external :
    ∀ {l : List String} {r : String}, bareIframeTier l = some r → is_external r = true := by
  intro l
  induction l with
  | nil => intro r h; simp [bareIframeTier] at h
  | cons src rest ih =>
    intro r h
    simp only [bareIframeTier] at h
    split at h
    · cases h; assumption
    · exact ih h

theorem collectCandidates_external :
    ∀ {l : List Anchor} {c : String}, c ∈ collectCandidates l → is_external c = true := by
  intro l
  induction l with
  | nil => intro c h; simp [collectCandidates] at h
  | cons a rest ih =>
    intro c h
    simp only [collectCandidates] at h
    split at h
    · exact ih h
    · split at h
      · exact ih h
      · split at h
        · rcases List.mem_cons.mp h with rfl | h'
          · assumption
          · exact ih h'
        · exact ih h

theorem anchorTier_external (ndli_id : Option String) (anchors : List Anchor) :
    ∀ {r : String}, anchorTier ndli_id anchors = some r → is_external r = true := by
  intro r h
  simp only [anchorTier] at h
  split at h
  · split at h
    · cases h
      exact collectCandidates_external (List.mem_of_find?_eq_some (by assumption))
    · exact collectCandidates_external (List.mem_of_find?_eq_some h)
  · exact collectCandidates_external (List.mem_of_find?_eq_some h)

theorem guessTier_external (net : Net) :
    ∀ {i : Option String} {r : String}, guessTier net i = some r → is_external r = true := by
  intro i r h
  cases i with
  | none => simp [guessTier] at h
  | some s =>
    simp only [guessTier] at h
    split at h
    · exact absurd h (by simp)
    · split at h
      · cases h; simp_all
      · exact absurd h (by simp)

theorem extract_external_link_external (net : Net) (article_url : String) :
    ∀ {r : String}, extract_external_link net article_url = some r → is_external r = true := by
  intro r h
  simp only [extract_external_link] at h
  split at h
  · exact absurd h (by simp)
  · split at h
    · cases h; exact viewerTier_external net _ _ (by assumption)
    · split at h
      · cases h; exact buttonTier_external _ _ (by assumption)
      · split at h
        · cases h; exact metaPass_external _ (by assumption)
        · split at h
          · cases h; exact canonicalPass_external _ (by assumption)
          · split at h
            · cases h; exact bareIframeTier_external (by assumption)
            · split at h
              · cases h; exact anchorTier_external _ _ (by assumption)
              · exact guessTier_external net h

/-! ## Properties of the month-classifier candidates (for C5) -/

theorem monthAnchorCand_props (year_url : String) (year : Option String) (a : Anchor)
    {u : String} (h : monthAnchorCand year_url year a = some u) :
    strContains (netlocOf u) (netlocOf year_url) = true ∧ u ≠ year_url ∧
      ∀ y, year = some y → strContains u y = true := by
  simp only [monthAnchorCand] at h
  split at h
  · exact absurd h (by simp)
  · split at h
    · exact absurd h (by simp)
    · split at h
      · exact absurd h (by simp)
      · split at h
        · exact absurd h (by simp)
        · cases h
          refine ⟨by simp_all, by assumption, ?_⟩
          intro y hy
          subst hy
          simp_all

/-! ## Skipping `javascript:` anchors (for C9) -/

/-- Remove the anchors with a `javascript:` href from one content view. -/
def dropJsAnchors (c : Content) : Content :=
  { c with anchors := c.anchors.filter (fun a => !(strStartsWith (pyStrip a.href) "javascript:")) }

/-- Remove the anchors with a `javascript:` href everywhere in a page. -/
def dropJsPage (p : Page) : Page :=
  { titleTag := p.titleTag
    whole := dropJsAnchors p.whole
    articleSub := p.articleSub.map dropJsAnchors
    mainTagSub := p.mainTagSub.map dropJsAnchors
    subById := fun s => (p.subById s).map dropJsAnchors }

theorem searchRootOf_dropJs (p : Page) :
    searchRootOf (dropJsPage p) = dropJsAnchors (searchRootOf p) := by
  simp only [searchRootOf, dropJsPage]
  cases p.articleSub with
  | some c => rfl
  | none =>
    simp only [Option.map_none]
    cases p.subById "main" with
    | some c => rfl
    | none =>
      simp only [Option.map_none]
      cases p.mainTagSub with
      | some c => rfl
      | none => rfl

theorem dateMain_dropJs (month_url : String) (p : Page) :
    dateMain month_url (dropJsPage p) = dropJsAnchors (dateMain month_url p) := by
  simp only [dateMain]
  have : (dropJsPage p).subById ("col_toi_timesofindia_" ++ lastSegment (pathOf month_url)) =
      (p.subById ("col_toi_timesofindia_" ++ lastSegment (pathOf month_url))).map dropJsAnchors := rfl
  rw [this]
  cases p.subById ("col_toi_timesofindia_" ++ lastSegment (pathOf month_url)) with
  | some c => rfl
  | none => simp only [Option.map_none]; exact searchRootOf_dropJs p

theorem yearAnchorCand_js (base : String) (a : Anchor)
    (h : (!(strStartsWith (pyStrip a.href) "javascript:")) = false) :
    yearAnchorCand base a = none := by
  simp only [Bool.not_eq_false'] at h
  simp [yearAnchorCand, h]

theorem linkedAnchorCand_js (url : String) (a : Anchor)
    (h : (!(strStartsWith (pyStrip a.href) "javascript:")) = false) :
    linkedAnchorCand url a = none := by
  simp only [Bool.not_eq_false'] at h
  simp [linkedAnchorCand, h]

theorem monthAnchorCand_js (year_url : String) (year : Option String) (a : Anchor)
    (h : (!(strStartsWith (pyStrip a.href) "javascript:")) = false) :
    monthAnchorCand year_url year a = none := by
  simp only [Bool.not_eq_false'] at h
  simp [monthAnchorCand, h]

theorem dateAnchorCand_js (month_url : String) (a : Anchor)
    (h : (!(strStartsWith (pyStrip a.href) "javascript:")) = false) :
    dateAnchorCand month_url a = none := by
  simp only [Bool.not_eq_false'] at h
  simp [dateAnchorCand, h]

theorem headlineAnchorCand_js (date_url : String) (a : Anchor)
    (h : (!(strStartsWith (pyStrip a.href) "javascript:")) = false) :
    headlineAnchorCand date_url a = none := by
  simp only [Bool.not_eq_false'] at h
  simp [headlineAnchorCand, h]

/-! ## The cap parameters of the orchestrator (for C10) -/

theorem truncateCap_none {α : Type} (l : List α) : truncateCap none l = l := rfl

theorem truncateCap_some_zero {α : Type} (l : List α) : truncateCap (some 0) l = l := by
  simp [truncateCap]

theorem runDates_cap_zero (net : Net) (y m : String) (resolve : Bool) :
    ∀ ds : List String, runDates net y m (some 0) resolve ds = runDates net y m none resolve ds := by
  intro ds
  induction ds with
  | nil => rfl
  | cons d rest ih =>
    simp only [runDates, truncateCap_some_zero, truncateCap_none, ih]

theorem runMonths_capD_zero (net : Net) (y : String) (mt : Option Int) (resolve : Bool) :
    ∀ ms : List String,
      runMonths net y (some 0) mt resolve ms = runMonths net y none mt resolve ms := by
  intro ms
  induction ms with
  | nil => rfl
  | cons m rest ih =>
    simp only [runMonths, truncateCap_some_zero, truncateCap_none, ih]

theorem runMonths_capT_zero (net : Net) (y : String) (md : Option Int) (resolve : Bool) :
    ∀ ms : List String,
      runMonths net y md (some 0) resolve ms = runMonths net y md none resolve ms := by
  intro ms
  induction ms with
  | nil => rfl
  | cons m rest ih =>
    simp only [runMonths, runDates_cap_zero, ih]

theorem runYears_capM_zero (net : Net) (md mt : Option Int) (resolve : Bool) :
    ∀ ys : List String,
      runYears net (some 0) md mt resolve ys = runYears net none md mt resolve ys := by
  intro ys
  induction ys with
  | nil => rfl
  | cons y rest ih =>
    simp only [runYears, truncateCap_some_zero, truncateCap_none, ih]

theorem runYears_capD_zero (net : Net) (mm mt : Option Int) (resolve : Bool) :
    ∀ ys : List String,
      runYears net mm (some 0) mt resolve ys = runYears net mm none mt resolve ys := by
  intro ys
  induction ys with
  | nil => rfl
  | cons y rest ih =>
    simp only [runYears, runMonths_capD_zero, ih]

theorem runYears_capT_zero (net : Net) (mm md : Option Int) (resolve : Bool) :
    ∀ ys : List String,
      runYears net mm md (some 0) resolve ys = runYears net mm md none resolve ys := by
  intro ys
  induction ys with
  | nil => rfl
  | cons y rest ih =>
    simp only [runYears, runMonths_capT_zero, ih]

/-! ## Concrete fixtures used by counterexamples and witnesses -/

/-- A content view with nothing in it. -/
def emptyContent : Content := ⟨[], [], [], [], none, [], []⟩

/-- A page whose whole-document view is `c`, with no title and no subtrees. -/
def mkPage (c : Content) : Page := ⟨none, c, none, none, fun _ => none⟩

/-- A network serving exactly one page, failing on all other URLs. -/
def netOf (url : String) (p : Page) : Net :=
  ⟨fun u => if u = url then .ok p else .error "fail", fun _ => .error "fail"⟩

/-- A network on which every request fails. -/
def failNet : Net := ⟨fun _ => .error "boom", fun _ => .error "boom"⟩

/-- An archived article URL with no trailing numeric record id. -/
def c1Url : String := "http://www.ndl.gov.in/nw_document/toi/timesofindia/thetoi"

/-- A button-tier anchor whose external target matches neither the record id
nor the news pattern, next to an external `og:url` meta tag. -/
def c1Content : Content :=
  { emptyContent with
    anchors := [⟨"http://example.com/x", "Open", ["btn", "btn-success"]⟩],
    metas := [⟨some "og:url", none, some "http://other.com/y"⟩] }

/-- A button-tier anchor whose external target matches the news pattern, next
to an external `og:url` meta tag. -/
def c1wContent : Content :=
  { emptyContent with
    anchors := [⟨"http://timesofindia.indiatimes.com/articleshow/5.cms", "Open Content", []⟩],
    metas := [⟨some "og:url", none, some "http://other.com/y"⟩] }

/-- A page whose only external reference is an unrelated external anchor. -/
def c4Content : Content :=
  { emptyContent with anchors := [⟨"http://unrelated.org/a", "Some headline text", []⟩] }

/-- An archived article URL carrying a record id. -/
def c8Url : String := "http://www.ndl.gov.in/nw_document/toi/timesofindia/56881247"

/-- A page whose only candidate is an external non-viewer iframe (tier 5). -/
def c8Content : Content :=
  { emptyContent with iframes := ["http://pub.example.com/frame"] }

/-- A page with a `<title>` element whose `.string` is `None` (e.g. an empty
`<title></title>`). -/
def c7Page : Page := ⟨some none, emptyContent, none, none, fun _ => none⟩

/-- A page with a `<title>` element with surrounding whitespace. -/
def c7wPage : Page := ⟨some (some "  Sample Article  "), emptyContent, none, none, fun _ => none⟩

/-- A year page URL containing the year 2017. -/
def c5Url : String := "http://www.ndl.gov.in/toi/IN__thetoi_2017"

/-- A year page with a month link (repeated once), an off-domain link and a
link without the year. -/
def c5Content : Content :=
  { emptyContent with
    anchors := [⟨"/toi/IN__thetoi_2017_jan", "Jan", []⟩,
                ⟨"http://other.com/2017", "ext", []⟩,
                ⟨"/toi/IN__thetoi_2017_jan", "Jan again", []⟩,
                ⟨"/toi/IN__thetoi_2018_feb", "no year", []⟩] }

/-! ## The claims -/

/-- C1, as stated, is false: on a page holding both a button-tier anchor with
an external href (`http://example.com/x`, neither containing a record id nor
matching the news pattern) and an external `og:url` meta tag,
`extract_external_link` returns the meta tag's content, not the button
anchor's target. -/
theorem C1_counterexample :
    (c1Content.anchors = [⟨"http://example.com/x", "Open", ["btn", "btn-success"]⟩] ∧
      c1Content.metas = [⟨some "og:url", none, some "http://other.com/y"⟩] ∧
      is_external "http://example.com/x" = true ∧
      is_external "http://other.com/y" = true) ∧
    extract_external_link (netOf c1Url (mkPage c1Content)) c1Url = some "http://other.com/y" ∧
    ("http://other.com/y" : String) ≠ "http://example.com/x" :=
  ⟨⟨rfl, rfl, by decide, by decide⟩, by decide, by decide⟩

/-- C1 (amended): on an article page with no iframes (so the viewer tier
yields nothing), whenever the button tier produces a candidate — a
button-tier anchor whose normalized external target contains the parsed
record id or matches the news pattern — `extract_external_link` returns that
candidate, never the meta tag's content. -/
theorem C1_button_before_meta (net : Net) (url : String) (page : Page) (b : String)
    (hfetch : net.fetch url = .ok page)
    (hiframes : page.whole.iframes = [])
    (hbtn : buttonTier (originOf url) (trailingId (pathOf url)) page.whole.anchors = some b) :
    extract_external_link net url = some b := by
  simp only [extract_external_link, hfetch, hiframes, viewerTier]
  rw [hbtn]

/-- C1 witness: a button-tier anchor matching the news pattern beats a meta
`og:url` tag. -/
theorem C1_witness :
    extract_external_link (netOf c1Url (mkPage c1wContent)) c1Url =
      some "http://timesofindia.indiatimes.com/articleshow/5.cms" :=
  C1_button_before_meta _ _ (mkPage c1wContent)
    "http://timesofindia.indiatimes.com/articleshow/5.cms" rfl rfl (by decide)

/-- C2, as stated, is false for `list_headline_urls`: a failing date-page
fetch makes it raise a `RuntimeError` instead of returning an empty list. -/
theorem C2_counterexample :
    list_headline_urls failNet "http://h/d" =
      .error "Failed to fetch date url http://h/d: boom" ∧
    list_headline_urls failNet "http://h/d" ≠ .ok [] := by
  refine ⟨rfl, ?_⟩
  intro h
  rw [show list_headline_urls failNet "http://h/d" =
    Except.error "Failed to fetch date url http://h/d: boom" from rfl] at h
  exact Except.noConfusion h

/-- C2 (amended): when a date-page fetch fails,
`extract_titles_from_date_url` logs a warning and returns the empty list (so
a plain-title crawl continues), but `list_headline_urls` raises a
`RuntimeError`, aborting the hierarchical crawl in resolve-externals mode. -/
theorem C2_date_fetch_failure (net : Net) (url e : String)
    (h : net.fetch url = .error e) :
    extract_titles_from_date_url net url = [] ∧
    list_headline_urls net url = .error ("Failed to fetch date url " ++ url ++ ": " ++ e) := by
  constructor
  · simp only [extract_titles_from_date_url, h]
  · simp only [list_headline_urls, h]

/-- C2 witness: the failing network at a concrete date URL. -/
theorem C2_witness :
    extract_titles_from_date_url failNet "http://h/d" = [] ∧
    list_headline_urls failNet "http://h/d" =
      .error ("Failed to fetch date url " ++ "http://h/d" ++ ": " ++ "boom") :=
  C2_date_fetch_failure failNet "http://h/d" "boom" rfl

/-- C3: `extract_external_link` swallows every fetch failure: a failing
article fetch yields `none`; when every viewer fetch fails the viewer tier
produces no candidate; a failing constructed-guess request makes tier 7
produce no candidate.  (The function is total — it never raises.) -/
theorem C3_failures_swallowed (net : Net) (url : String) :
    ((∃ e, net.fetch url = .error e) → extract_external_link net url = none) ∧
    (∀ (base : String) (ndli_id : Option String) (srcs : List String),
      (∀ s ∈ srcs, ∃ e, net.fetch (normalize_link base (pyStrip s)) = .error e) →
      viewerTier net base ndli_id srcs = none) ∧
    (∀ i, (∃ e, net.headGet (guessCandidate i) = .error e) → guessTier net (some i) = none) := by
  refine ⟨?_, ?_, ?_⟩
  · rintro ⟨e, he⟩
    simp [extract_external_link, he]
  · intro base ndli_id srcs h
    induction srcs with
    | nil => rfl
    | cons s rest ih =>
      obtain ⟨e, he⟩ := h s (List.mem_cons_self _ _)
      have ihr := ih (fun t ht => h t (List.mem_cons_of_mem _ ht))
      simp only [viewerTier]
      split
      · exact ihr
      · split
        · rw [he]
          exact ihr
        · exact ihr
  · rintro i ⟨e, he⟩
    simp [guessTier, he]

/-- C3 witness: concrete failing fetches at each of the three places. -/
theorem C3_witness :
    extract_external_link failNet "http://h/1" = none ∧
    viewerTier failNet "http://h" none ["x/viewer.php"] = none ∧
    guessTier failNet (some "7") = none :=
  ⟨(C3_failures_swallowed failNet "http://h/1").1 ⟨"boom", rfl⟩,
    (C3_failures_swallowed failNet "http://h/1").2.1 "http://h" none ["x/viewer.php"]
      (fun _ _ => ⟨"boom", rfl⟩),
    (C3_failures_swallowed failNet "http://h/1").2.2 "7" ⟨"boom", rfl⟩⟩

/-- C4: when no record id parses from the article URL and no tier up to the
bare-iframe tier produces a candidate, and every collected external anchor
candidate fails the news pattern, `extract_external_link` returns `none`
rather than any of those external anchors. -/
theorem C4_no_unrelated_external (net : Net) (url : String) (page : Page)
    (hfetch : net.fetch url = .ok page)
    (hid : trailingId (pathOf url) = none)
    (hviewer : viewerTier net (originOf url) none page.whole.iframes = none)
    (hbtn : buttonTier (originOf url) none page.whole.anchors = none)
    (hmeta : metaPass page.whole = none)
    (hcanon : canonicalPass page.whole = none)
    (hiframe : bareIframeTier page.whole.iframes = none)
    (hanchors : ∀ c ∈ collectCandidates page.whole.anchors, news_re c = false) :
    extract_external_link net url = none := by
  have hat : anchorTier none page.whole.anchors = none := by
    simp only [anchorTier]
    apply List.find?_eq_none.mpr
    intro c hc
    simp [hanchors c hc]
  simp only [extract_external_link, hfetch, hid, hviewer, hbtn, hmeta, hcanon, hiframe, hat]
  rfl

/-- C4 witness: a page whose only external reference is an unrelated anchor,
on an article URL without a record id. -/
theorem C4_witness :
    extract_external_link (netOf c1Url (mkPage c4Content)) c1Url = none :=
  C4_no_unrelated_external _ _ (mkPage c4Content) rfl (by decide) rfl (by decide)
    rfl rfl rfl (by decide)

/-- C5: on a successfully fetched year page `list_month_urls` returns exactly
the per-anchor month candidates (same-domain by netloc containment, not the
year URL itself, containing the first-matched 4-digit year when one parses
out of the year URL) in first-appearance order deduplicated by URL; a fetch
failure of the year page raises. -/
theorem C5_list_month_urls (net : Net) (yurl : String) :
    (∀ e, net.fetch yurl = .error e →
      list_month_urls net yurl = .error ("Failed to fetch year url " ++ yurl ++ ": " ++ e)) ∧
    (∀ page, net.fetch yurl = .ok page →
      list_month_urls net yurl =
        .ok (keepFirstsBy (fun u => u)
          (page.whole.anchors.filterMap (monthAnchorCand yurl (firstYear yurl)))) ∧
      (list_month_urls_core yurl page).Nodup ∧
      ∀ u ∈ list_month_urls_core yurl page,
        strContains (netlocOf u) (netlocOf yurl) = true ∧ u ≠ yurl ∧
          ∀ y, firstYear yurl = some y → strContains u y = true) := by
  constructor
  · intro e he
    simp [list_month_urls, he]
  · intro page hp
    refine ⟨?_, ?_, ?_⟩
    · simp only [list_month_urls, hp, list_month_urls_core]
      rw [scanDedup_nil_seen]
    · rw [list_month_urls_core, scanDedup_nil_seen]
      exact keepFirstsBy_id_nodup _
    · intro u hu
      obtain ⟨a, _, hcand⟩ := scanDedup_mem hu
      exact monthAnchorCand_props yurl (firstYear yurl) a hcand

/-- C5 witness: a concrete year page with a duplicate month link, an
off-domain link and a link missing the year. -/
theorem C5_witness :
    (list_month_urls (netOf c5Url (mkPage c5Content)) c5Url =
        .ok (keepFirstsBy (fun u => u)
          ((mkPage c5Content).whole.anchors.filterMap (monthAnchorCand c5Url (firstYear c5Url)))) ∧
      (list_month_urls_core c5Url (mkPage c5Content)).Nodup ∧
      ∀ u ∈ list_month_urls_core c5Url (mkPage c5Content),
        strContains (netlocOf u) (netlocOf c5Url) = true ∧ u ≠ c5Url ∧
          ∀ y, firstYear c5Url = some y → strContains u y = true) ∧
    list_month_urls_core c5Url (mkPage c5Content) =
      ["http://www.ndl.gov.in/toi/IN__thetoi_2017_jan"] :=
  ⟨(C5_list_month_urls (netOf c5Url (mkPage c5Content)) c5Url).2 (mkPage c5Content) rfl,
    by decide⟩

/-- Pointwise: the anchor filter of `extract_titles_from_page` equals the
spec's description (≥ 4 characters and not a pure 4-digit string). -/
theorem titleAnchorCand_eq_spec (a : Anchor) :
    titleAnchorCand a =
      if 4 ≤ a.text.data.length ∧
          ¬(a.text.data.length = 4 ∧ a.text.data.all Char.isDigit = true) then some a.text
      else none := by
  simp only [titleAnchorCand]
  split
  · rename_i h0
    rw [if_neg]
    rintro ⟨h4, -⟩
    have hz : a.text.data.length = 0 := by rw [h0]; rfl
    omega
  · split
    · rename_i h0 h1
      rw [if_neg]
      rintro ⟨h4, -⟩
      omega
    · split
      · rename_i h0 h1 h2
        rw [if_neg]
        simp only [Bool.and_eq_true, decide_eq_true_eq] at h2
        rintro ⟨-, hn⟩
        exact hn ⟨h2.2, h2.1⟩
      · rename_i h0 h1 h2
        rw [if_pos]
        constructor
        · omega
        · rintro ⟨hl, hd⟩
          exact h2 (by simp [hd, hl])

/-- Pointwise: the list-item filter of `extract_titles_from_page` equals the
spec's description (≥ 4 characters only). -/
theorem titleListItemCand_eq_spec (t : String) :
    titleListItemCand t = if 4 ≤ t.data.length then some t else none := by
  simp only [titleListItemCand]
  split
  · rename_i h0
    rw [if_neg]
    intro h4
    have hz : t.data.length = 0 := by rw [h0]; rfl
    omega
  · split
    · rename_i h0 h1
      rw [if_neg]
      intro h4
      omega
    · rename_i h0 h1
      rw [if_pos]
      omega

theorem filterMap_guard_eq_filter {α : Type} (p : α → Prop) [DecidablePred p] :
    ∀ l : List α, l.filterMap (fun t => if p t then some t else none) = l.filter (fun t => decide (p t)) := by
  intro l
  induction l with
  | nil => rfl
  | cons x xs ih =>
    simp only [List.filterMap_cons, List.filter_cons]
    by_cases hx : p x
    · simp [hx, ih]
    · simp [hx, ih]

/-- The anchor-candidate titles of a content root, written from the spec. -/
def specAnchorTitles (c : Content) : List String :=
  c.anchors.filterMap (fun a =>
    if 4 ≤ a.text.data.length ∧
        ¬(a.text.data.length = 4 ∧ a.text.data.all Char.isDigit = true) then some a.text
    else none)

/-- The list-item titles of a content root, written from the spec. -/
def specListItemTitles (c : Content) : List String :=
  c.listItems.filter (fun t => decide (4 ≤ t.data.length))

/-- C6: `extract_titles_from_page` equals: anchor texts of at least 4
characters that are not pure 4-digit strings, followed by list-item texts of
at least 4 characters (4-digit list items are kept), deduplicated by text
keeping first occurrences; in particular every ≥4-character list item text
(“2024” included) appears in the result. -/
theorem C6_title_filters (page : Page) :
    extract_titles_from_page page =
      keepFirstsBy (fun t => t)
        (specAnchorTitles (searchRootOf page) ++ specListItemTitles (searchRootOf page)) ∧
    ∀ t ∈ (searchRootOf page).listItems, 4 ≤ t.data.length →
      t ∈ extract_titles_from_page page := by
  have hA : (searchRootOf page).anchors.filterMap titleAnchorCand =
      specAnchorTitles (searchRootOf page) := by
    unfold specAnchorTitles
    congr 1
    funext a
    exact titleAnchorCand_eq_spec a
  have hL : (searchRootOf page).listItems.filterMap titleListItemCand =
      specListItemTitles (searchRootOf page) := by
    unfold specListItemTitles
    rw [show titleListItemCand = (fun t => if 4 ≤ t.data.length then some t else none) from
      funext titleListItemCand_eq_spec]
    exact filterMap_guard_eq_filter _ _
  have hEq : extract_titles_from_page page =
      keepFirstsBy (fun t => t)
        (specAnchorTitles (searchRootOf page) ++ specListItemTitles (searchRootOf page)) := by
    simp only [extract_titles_from_page]
    rw [dedupBy_nil_seen, hA, hL]
  refine ⟨hEq, ?_⟩
  intro t ht h4
  rw [hEq]
  apply mem_keepFirstsBy_id.mpr
  apply List.mem_append_right
  exact List.mem_filter.mpr ⟨ht, by simpa using h4⟩

/-- C6 witness: an anchor “2024” is dropped, a list item “2024” is kept,
short texts are dropped, anchors precede list items, duplicates collapse. -/
theorem C6_witness :
    (extract_titles_from_page (mkPage
        { emptyContent with
          anchors := [⟨"/d/1", "2024", []⟩, ⟨"/d/2", "Title One", []⟩, ⟨"/d/3", "abc", []⟩],
          listItems := ["2024", "Title One", "Title Two", "xy"] }) =
      keepFirstsBy (fun t => t)
        (specAnchorTitles (searchRootOf (mkPage
          { emptyContent with
            anchors := [⟨"/d/1", "2024", []⟩, ⟨"/d/2", "Title One", []⟩, ⟨"/d/3", "abc", []⟩],
            listItems := ["2024", "Title One", "Title Two", "xy"] })) ++
         specListItemTitles (searchRootOf (mkPage
          { emptyContent with
            anchors := [⟨"/d/1", "2024", []⟩, ⟨"/d/2", "Title One", []⟩, ⟨"/d/3", "abc", []⟩],
            listItems := ["2024", "Title One", "Title Two", "xy"] })))) ∧
    extract_titles_from_page (mkPage
        { emptyContent with
          anchors := [⟨"/d/1", "2024", []⟩, ⟨"/d/2", "Title One", []⟩, ⟨"/d/3", "abc", []⟩],
          listItems := ["2024", "Title One", "Title Two", "xy"] }) =
      ["Title One", "2024", "Title Two"] :=
  ⟨(C6_title_filters _).1, by decide⟩

/-- C7, as stated, is false: a page with a `<title>` element whose `.string`
is `None` (an empty `<title></title>`) yields an absent title, not a trimmed
text. -/
theorem C7_counterexample :
    c7Page.titleTag = some none ∧ (extract_text_and_title c7Page).title = none :=
  ⟨rfl, rfl⟩

/-- C7 (amended): for all HTML whose `<title>` element carries a non-empty
string, `extract_text_and_title` returns that string stripped of surrounding
whitespace as the title; a `<title>` without a string yields an absent
title. -/
theorem C7_title_trimmed (page : Page) (s : String)
    (h : page.titleTag = some (some s)) (hs : s ≠ "") :
    (extract_text_and_title page).title = some (pyStrip s) := by
  simp only [extract_text_and_title, h]
  rw [if_neg hs]

/-- C7 witness: a concrete padded title. -/
theorem C7_witness :
    (extract_text_and_title c7wPage).title = some "Sample Article" := by
  have h := C7_title_trimmed c7wPage "  Sample Article  " rfl (by decide)
  rw [h]
  rfl

/-- C8: every URL `extract_external_link` returns has a non-empty hostname
not containing the substring `ndl.gov.in` — the internal test being substring
containment on the netloc, any netloc containing `ndl.gov.in` anywhere is
treated as internal and never returned. -/
theorem C8_result_external (net : Net) (article_url : String) (u : String)
    (h : extract_external_link net article_url = some u) :
    netlocOf u ≠ "" ∧ strContains (netlocOf u) "ndl.gov.in" = false := by
  have hext := extract_external_link_external net article_url h
  simp only [is_external, Bool.and_eq_true, decide_eq_true_eq, Bool.not_eq_true'] at hext
  exact hext

/-- C8 witness: a concrete resolution through the bare-iframe tier, plus the
substring (not suffix) nature of the internality test on a crafted netloc. -/
theorem C8_witness :
    extract_external_link (netOf c8Url (mkPage c8Content)) c8Url =
      some "http://pub.example.com/frame" ∧
    (netlocOf "http://pub.example.com/frame" ≠ "" ∧
      strContains (netlocOf "http://pub.example.com/frame") "ndl.gov.in" = false) ∧
    is_external "http://ndl.gov.in.evil.com/x" = false := by
  have h : extract_external_link (netOf c8Url (mkPage c8Content)) c8Url =
      some "http://pub.example.com/frame" := by decide
  exact ⟨h, C8_result_external _ _ _ h, by decide⟩

/-- C9: in all four classifiers (`list_year_urls`, `list_linked_pages`,
`list_date_urls`, `list_headline_urls`) anchors whose stripped href starts
with `javascript:` are skipped: removing them from the page leaves each
classifier's output unchanged, so no returned URL derives from a
`javascript:` href. -/
theorem C9_javascript_skipped (url : String) (page : Page) :
    list_year_urls_core url page = list_year_urls_core url (dropJsPage page) ∧
    list_linked_pages_core url page = list_linked_pages_core url (dropJsPage page) ∧
    list_date_urls_core url page = list_date_urls_core url (dropJsPage page) ∧
    list_headline_urls_core url page = list_headline_urls_core url (dropJsPage page) := by
  refine ⟨?_, ?_, ?_, ?_⟩
  · unfold list_year_urls_core
    rw [show (dropJsPage page).whole.anchors =
      page.whole.anchors.filter (fun a => !(strStartsWith (pyStrip a.href) "javascript:")) from rfl]
    rw [scanDedup_filter_invariant _ _ _ (yearAnchorCand_js (originOf url))]
  · unfold list_linked_pages_core
    rw [show (dropJsPage page).whole.anchors =
      page.whole.anchors.filter (fun a => !(strStartsWith (pyStrip a.href) "javascript:")) from rfl]
    rw [scanDedup_filter_invariant _ _ _ (linkedAnchorCand_js url)]
  · unfold list_date_urls_core
    rw [dateMain_dropJs]
    rw [show (dropJsAnchors (dateMain url page)).anchors =
      (dateMain url page).anchors.filter (fun a => !(strStartsWith (pyStrip a.href) "javascript:")) from rfl]
    rw [scanDedup_filter_invariant _ _ _ (dateAnchorCand_js url)]
  · unfold list_headline_urls_core
    rw [searchRootOf_dropJs]
    rw [show (dropJsAnchors (searchRootOf page)).anchors =
      (searchRootOf page).anchors.filter (fun a => !(strStartsWith (pyStrip a.href) "javascript:")) from rfl]
    rw [scanDedup_filter_invariant _ _ _ (headlineAnchorCand_js url)]

/-- C10: in `run_hierarchical_scrape`, a cap of `0` at any of the four cap
parameters is falsy and therefore behaves exactly like `None`: no cap, all
items processed. -/
theorem C10_zero_cap_is_no_cap (net : Net) (start_url : String)
    (c1 c2 c3 c4 : Option Int) (r : Bool) :
    run_hierarchical_scrape net start_url (some 0) c2 c3 c4 r =
        run_hierarchical_scrape net start_url none c2 c3 c4 r ∧
    run_hierarchical_scrape net start_url c1 (some 0) c3 c4 r =
        run_hierarchical_scrape net start_url c1 none c3 c4 r ∧
    run_hierarchical_scrape net start_url c1 c2 (some 0) c4 r =
        run_hierarchical_scrape net start_url c1 c2 none c4 r ∧
    run_hierarchical_scrape net start_url c1 c2 c3 (some 0) r =
        run_hierarchical_scrape net start_url c1 c2 c3 none r := by
  refine ⟨?_, ?_, ?_, ?_⟩
  · simp only [run_hierarchical_scrape]
    cases list_year_urls net start_url with
    | error e => rfl
    | ok years =>
      show runYears net c2 c3 c4 r (truncateCap (some 0) years) =
        runYears net c2 c3 c4 r (truncateCap none years)
      rw [truncateCap_some_zero, truncateCap_none]
  · simp only [run_hierarchical_scrape]
    cases list_year_urls net start_url with
    | error e => rfl
    | ok years =>
      show runYears net (some 0) c3 c4 r (truncateCap c1 years) =
        runYears net none c3 c4 r (truncateCap c1 years)
      rw [runYears_capM_zero]
  · simp only [run_hierarchical_scrape]
    cases list_year_urls net start_url with
    | error e => rfl
    | ok years =>
      show runYears net c2 (some 0) c4 r (truncateCap c1 years) =
        runYears net c2 none c4 r (truncateCap c1 years)
      rw [runYears_capD_zero]
  · simp only [run_hierarchical_scrape]
    cases list_year_urls net start_url with
    | error e => rfl
    | ok years =>
      show runYears net c2 c3 (some 0) r (truncateCap c1 years) =
        runYears net c2 c3 none r (truncateCap c1 years)
      rw [runYears_capT_zero]

end NdliToi
